import Mathlib

/-!
Shallow embedding of the orbit-camera controller and cursor-picking engine
of `src/main.rs` (a Bevy 0.1 example application).

Modelling conventions:
* `f32` values are modelled as exact numbers.  The picking subsystem
  (`cursor_pick`, `point_in_tri`, `double_tri_area`) is modelled over `ℚ`
  so concrete runs can be evaluated; the camera subsystem
  (`process_user_input`, `update_camera`) is modelled over `ℝ` because the
  degree-to-radian conversion `f32::to_radians` multiplies by `π / 180`.
* The Rust `println!("HIT! ...")` in `cursor_pick` is the only observable
  output of the picking loop, so the embedding returns the ordered list of
  hits (mesh id plus the transformed triangle) that would be printed.
* An out-of-bounds vertex index panics in Rust; the embedding returns
  `none` for that case (`Option` = panic-or-result).
-/

namespace HelloBevy

/-- 2D vector over `ℚ` (glam `Vec2`), used by the picking subsystem. -/
structure Vec2 where
  x : ℚ
  y : ℚ
deriving DecidableEq, Repr

/-- 3D vector over `ℚ` (glam `Vec3`), used by the picking subsystem. -/
structure Vec3 where
  x : ℚ
  y : ℚ
  z : ℚ
deriving DecidableEq, Repr

/-- The zero vector, `Vec3::zero()`. -/
def Vec3.zero : Vec3 := ⟨0, 0, 0⟩

/-- 4D vector over `ℚ` (glam `Vec4`), a column of a `Mat4`. -/
structure Vec4 where
  x : ℚ
  y : ℚ
  z : ℚ
  w : ℚ
deriving DecidableEq, Repr

/-- Componentwise addition of `Vec4`. -/
def Vec4.add (a b : Vec4) : Vec4 := ⟨a.x + b.x, a.y + b.y, a.z + b.z, a.w + b.w⟩

/-- Scaling of a `Vec4` by a scalar. -/
def Vec4.smul (v : Vec4) (s : ℚ) : Vec4 := ⟨v.x * s, v.y * s, v.z * s, v.w * s⟩

/-- Column-major 4x4 matrix over `ℚ` (glam `Mat4`). -/
structure Mat4 where
  x_axis : Vec4
  y_axis : Vec4
  z_axis : Vec4
  w_axis : Vec4
deriving DecidableEq, Repr

/-- Matrix-vector product: linear combination of the columns. -/
def Mat4.mulVec4 (m : Mat4) (v : Vec4) : Vec4 :=
  (m.x_axis.smul v.x).add ((m.y_axis.smul v.y).add ((m.z_axis.smul v.z).add (m.w_axis.smul v.w)))

/-- glam `Mat4::transform_point3`: multiply the point with `w = 1` and
project the result back to `w = 1` (perspective divide).  Division by a
zero `w` yields `0` in `ℚ`; every use in this development has `w = 1`. -/
def Mat4.transformPoint3 (m : Mat4) (v : Vec3) : Vec3 :=
  let r := m.mulVec4 ⟨v.x, v.y, v.z, 1⟩
  ⟨r.x / r.w, r.y / r.w, r.z / r.w⟩

/-- Matrix product `a * b` (columns of `b` mapped through `a`). -/
def Mat4.mul (a b : Mat4) : Mat4 :=
  ⟨a.mulVec4 b.x_axis, a.mulVec4 b.y_axis, a.mulVec4 b.z_axis, a.mulVec4 b.w_axis⟩

/-- The identity matrix. -/
def Mat4.identity : Mat4 :=
  ⟨⟨1, 0, 0, 0⟩, ⟨0, 1, 0, 0⟩, ⟨0, 0, 1, 0⟩, ⟨0, 0, 0, 1⟩⟩

/-- Source `double_tri_area`: twice the (unsigned) area of triangle `abc`,
`f32::abs(a.x() * (b.y() - c.y()) + b.x() * (c.y() - a.y()) + c.x() * (a.y() - b.y()))`. -/
def double_tri_area (a b c : Vec2) : ℚ :=
  |a.x * (b.y - c.y) + b.x * (c.y - a.y) + c.x * (a.y - b.y)|

/-- The literal `0.000000001` used as `epsilon` in `point_in_tri`. -/
def epsilon : ℚ := 1 / 1000000000

/-- Source `point_in_tri`: `p` is declared inside triangle `abc` iff the sum
of the three cursor sub-triangle double-areas differs from the full
double-area by less than `epsilon`. -/
def point_in_tri (p a b c : Vec2) : Bool :=
  let area := double_tri_area a b c
  let pab := double_tri_area p a b
  let pac := double_tri_area p a c
  let pbc := double_tri_area p b c
  let area_tris := pab + pac + pbc
  decide (|area - area_tris| < epsilon)

/-- Bevy 0.1 `PrimitiveTopology` (render pipeline). -/
inductive PrimitiveTopology where
  | PointList
  | LineList
  | LineStrip
  | TriangleList
  | TriangleStrip
deriving DecidableEq, Repr

/-- Bevy 0.1 `VertexAttributeValues`: only the `Float3` payload is consumed
by `cursor_pick`; every other payload shape is collapsed into `OtherVals`. -/
inductive VertexAttributeValues where
  | Float3 (positions : List Vec3)
  | OtherVals
deriving DecidableEq, Repr

/-- The attribute name constant `VertexAttribute::POSITION`. -/
def POSITION : String := "Vertex_Position"

/-- Bevy 0.1 `VertexAttribute`: a named attribute buffer. -/
structure VertexAttribute where
  name : String
  values : VertexAttributeValues
deriving DecidableEq, Repr

/-- Bevy 0.1 `Mesh` as consumed by `cursor_pick`: topology tag, attribute
list, optional index buffer. -/
structure Mesh where
  primitive_topology : PrimitiveTopology
  attributes : List VertexAttribute
  indices : Option (List Nat)
deriving DecidableEq, Repr

/-- The attribute loop of `cursor_pick` (lines 346-354): iterate the
attributes, `break` on the first one not named `POSITION`, and overwrite
`vertices` with each `Float3` payload seen.  `acc` is the current value of
the `vertices` variable (initially the empty vector). -/
def extractVertices : List VertexAttribute → List Vec3 → List Vec3
  | [], acc => acc
  | a :: rest, acc =>
    if a.name ≠ POSITION then acc
    else
      match a.values with
      | .Float3 positions => extractVertices rest positions
      | .OtherVals => extractVertices rest acc

/-- Rust `slice::chunks(3)`: consecutive chunks of three, with a final
shorter chunk when the length is not a multiple of three. -/
def chunks3 : List Nat → List (List Nat)
  | a :: b :: c :: rest => [a, b, c] :: chunks3 rest
  | [] => []
  | rest => [rest]

/-- The triangle built for one index chunk (lines 367-375): when the chunk
has exactly three indices, the three vertices are looked up (an
out-of-bounds index panics, modelled as `none`) and transformed by the
combined matrix; otherwise the triangle keeps its initialisation of three
zero vectors. -/
def chunkTriangle (combined : Mat4) (vertices : List Vec3) (chunk : List Nat) :
    Option (Vec3 × Vec3 × Vec3) :=
  if chunk.length = 3 then
    match chunk with
    | [i0, i1, i2] =>
      match vertices.get? i0, vertices.get? i1, vertices.get? i2 with
      | some v0, some v1, some v2 =>
        some (combined.transformPoint3 v0, combined.transformPoint3 v1,
          combined.transformPoint3 v2)
      | _, _, _ => none
    | _ => none
  else
    some (Vec3.zero, Vec3.zero, Vec3.zero)

/-- The `point_in_tri` call of `cursor_pick` (lines 376-381): drop the `z`
coordinates of the transformed triangle and test the cursor. -/
def triContains (cursor : Vec2) (t : Vec3 × Vec3 × Vec3) : Bool :=
  point_in_tri cursor ⟨t.1.x, t.1.y⟩ ⟨t.2.1.x, t.2.1.y⟩ ⟨t.2.2.x, t.2.2.y⟩

/-- The triangle loop of `cursor_pick` (lines 360-387): scan each index
chunk in order; on the first whose triangle contains the cursor, `break`
with that (transformed) triangle.  `none` = a vertex lookup panicked,
`some none` = no chunk contained the cursor, `some (some t)` = hit `t`. -/
def scanChunks (cursor : Vec2) (combined : Mat4) (vertices : List Vec3) :
    List (List Nat) → Option (Option (Vec3 × Vec3 × Vec3))
  | [] => some none
  | c :: rest =>
    match chunkTriangle combined vertices c with
    | none => none
    | some t =>
      if triContains cursor t then some (some t)
      else scanChunks cursor combined vertices rest

/-- One printed `HIT!` line: the mesh handle id and the transformed
triangle. -/
structure PickHit where
  meshId : Nat
  triangle : Vec3 × Vec3 × Vec3
deriving DecidableEq, Repr

/-- Evaluation of a single mesh inside the mesh loop (lines 337-388):
extract the vertices, and when an index buffer is present scan its chunks;
a mesh without an index buffer produces nothing (there is no `else` branch
for `if let Some(indices)`).  `none` = panic, `some none` = no hit for this
mesh, `some (some h)` = this mesh prints hit `h`. -/
def meshHit (cursor : Vec2) (projection view : Mat4) (m : Nat × Mesh × Mat4) :
    Option (Option PickHit) :=
  let combined := projection.mul (view.mul m.2.2)
  let vertices := extractVertices m.2.1.attributes []
  match m.2.1.indices with
  | none => some none
  | some idxs =>
    match scanChunks cursor combined vertices (chunks3 idxs) with
    | none => none
    | some none => some none
    | some (some t) => some (some ⟨m.1, t⟩)

/-- The mesh loop of `cursor_pick` (lines 335-390): iterate the meshes in
order.  A mesh whose topology is not `TriangleList` executes `break`,
ending the whole loop (line 339).  A hit inside a mesh only breaks that
mesh's triangle loop, so later meshes are still evaluated and the hits
accumulate in iteration order. -/
def pickMeshes (cursor : Vec2) (projection view : Mat4) :
    List (Nat × Mesh × Mat4) → Option (List PickHit)
  | [] => some []
  | m :: rest =>
    if m.2.1.primitive_topology ≠ PrimitiveTopology.TriangleList then some []
    else
      match meshHit cursor projection view m with
      | none => none
      | some oh =>
        match pickMeshes cursor projection view rest with
        | none => none
        | some hits =>
          match oh with
          | none => some hits
          | some h => some (h :: hits)

/-- Screen-to-NDC conversion of `cursor_pick` (line 311):
`(cursor_position / screen_size) * 2.0 - (1, 1)`, componentwise. -/
def ndcCursor (cursor_position screen_size : Vec2) : Vec2 :=
  ⟨cursor_position.x / screen_size.x * 2 - 1, cursor_position.y / screen_size.y * 2 - 1⟩

/-- Source `cursor_pick`, given the latest cursor position, the window
size, the camera's projection and view matrices, and the pickable meshes
(handle id, mesh asset, world transform) in query iteration order. -/
def cursor_pick (cursor_position screen_size : Vec2) (projection view : Mat4)
    (meshes : List (Nat × Mesh × Mat4)) : Option (List PickHit) :=
  pickMeshes (ndcCursor cursor_position screen_size) projection view meshes

/-- 2D vector over `ℝ` (glam `Vec2`), used by the camera subsystem, which
needs `π` for the degree-to-radian conversions. -/
structure Vec2R where
  x : ℝ
  y : ℝ

/-- Bevy `MouseMotion` event: the frame's cursor-motion delta. -/
structure MouseMotion where
  delta : Vec2R

/-- Bevy `MouseScrollUnit`. -/
inductive MouseScrollUnit where
  | Pixel
  | Line

/-- Bevy `MouseWheel` event: the frame's scroll delta. -/
structure MouseWheel where
  unit : MouseScrollUnit
  x : ℝ
  y : ℝ

/-- Source `CameraManipulation` (lines 158-163). -/
inductive CameraManipulation where
  | Pan (delta : MouseMotion)
  | Orbit (delta : MouseMotion)
  | Rotate (delta : MouseMotion)
  | Zoom (scroll : MouseWheel)

/-- Source `OrbitCamera` component (lines 35-42).  The entity references
are modelled as optional entity ids. -/
@[ext]
structure OrbitCamera where
  cam_distance : ℝ
  cam_pitch : ℝ
  cam_yaw : ℝ
  cam_entity : Option Nat
  light_entity : Option Nat
  camera_manipulation : Option CameraManipulation

/-- f32 `to_radians`: multiply by `π / 180`. -/
noncomputable def toRadians (deg : ℝ) : ℝ := deg * (Real.pi / 180)

/-- Source `Default for OrbitCamera` (lines 44-55). -/
noncomputable def OrbitCamera.default : OrbitCamera :=
  ⟨20, toRadians 30, 0, none, none, none⟩

/-- The `zoom_scale` constant of `process_user_input` (line 194). -/
def zoom_scale : ℝ := 50

/-- The `look_scale` constant of `process_user_input` (line 195). -/
def look_scale : ℝ := 1

open Classical in
/-- The intent classification of `process_user_input` (lines 197-213):
first match among Alt+Middle → Pan, Shift+Middle → Rotate, Middle → Orbit,
nonzero vertical scroll → Zoom, otherwise none.  `l_mouse` and `r_mouse`
are read by the source but unused. -/
noncomputable def classifyManipulation (l_alt l_shift l_mouse m_mouse r_mouse : Bool)
    (mouse_movement : MouseMotion) (scroll_amount : MouseWheel) :
    Option CameraManipulation :=
  if l_alt && m_mouse then some (CameraManipulation.Pan mouse_movement)
  else if l_shift && m_mouse then some (CameraManipulation.Rotate mouse_movement)
  else if m_mouse then some (CameraManipulation.Orbit mouse_movement)
  else if scroll_amount.y ≠ 0 then some (CameraManipulation.Zoom scroll_amount)
  else none

/-- The per-camera `match` of `process_user_input` (lines 215-228):
`Orbit` moves yaw and pitch, `Zoom` moves distance, `Pan`/`Rotate`/none do
nothing.  `dt` is `time.delta_seconds`. -/
def applyManipulation (camera : OrbitCamera) (manipulation : Option CameraManipulation)
    (dt : ℝ) : OrbitCamera :=
  match manipulation with
  | none => camera
  | some (CameraManipulation.Orbit mouse_move) =>
    { camera with
      cam_yaw := camera.cam_yaw + mouse_move.delta.x * dt
      cam_pitch := camera.cam_pitch - mouse_move.delta.y * dt * look_scale }
  | some (CameraManipulation.Zoom scroll) =>
    { camera with cam_distance := camera.cam_distance - scroll.y * dt * zoom_scale }
  | some (CameraManipulation.Pan _) => camera
  | some (CameraManipulation.Rotate _) => camera

/-- The state mutation of `update_camera` (lines 240-244): clamp the pitch
to `[1°, 179°]` (in radians) and the distance to `[5, 30]` via
`.max(lo).min(hi)`.  The rest of `update_camera` derives the poses of the
dependent camera and light entities and does not touch `OrbitCamera`. -/
noncomputable def update_camera (camera : OrbitCamera) : OrbitCamera :=
  { camera with
    cam_pitch := min (max camera.cam_pitch (toRadians 1)) (toRadians 179)
    cam_distance := min (max camera.cam_distance 5) 30 }

/-- One frame of the camera schedule: `process_user_input` applies the
frame's manipulation, then `update_camera` clamps. -/
noncomputable def frame (camera : OrbitCamera) (manipulation : Option CameraManipulation)
    (dt : ℝ) : OrbitCamera :=
  update_camera (applyManipulation camera manipulation dt)

/-- A whole run: fold `frame` over a sequence of (manipulation, dt) pairs. -/
noncomputable def runFrames (camera : OrbitCamera)
    (steps : List (Option CameraManipulation × ℝ)) : OrbitCamera :=
  steps.foldl (fun c p => frame c p.1 p.2) camera

/-- The invariant claimed for the stored camera state: pitch within
`[1°, 179°]` in radians, distance within `[5, 30]`. -/
noncomputable def camInRange (camera : OrbitCamera) : Prop :=
  toRadians 1 ≤ camera.cam_pitch ∧ camera.cam_pitch ≤ toRadians 179 ∧
    5 ≤ camera.cam_distance ∧ camera.cam_distance ≤ 30

/-- How the mesh loop combines one mesh's outcome with the outcome of the
remaining meshes when no `break` fires: a panic anywhere panics, otherwise
the mesh's hit (if any) is prepended to the later hits. -/
def combineHit (oh : Option (Option PickHit)) (acc : Option (List PickHit)) :
    Option (List PickHit) :=
  match oh, acc with
  | none, _ => none
  | some _, none => none
  | some none, some hits => some hits
  | some (some h), some hits => some (h :: hits)

/-! ## Concrete geometry for the picking claims

With window size `(2, 2)` and cursor position `(1, 1)` the NDC cursor is
`(0, 0)`; the triangle `(-1,-1), (1,-1), (0,1)` (at `z = 0`) contains it. -/

/-- Vertex positions of a triangle whose projection contains the origin. -/
def triPositions : List Vec3 := [⟨-1, -1, 0⟩, ⟨1, -1, 0⟩, ⟨0, 1, 0⟩]

/-- That triangle as transformed by the identity combined matrix. -/
def triA : Vec3 × Vec3 × Vec3 := (⟨-1, -1, 0⟩, ⟨1, -1, 0⟩, ⟨0, 1, 0⟩)

/-- A triangle-list mesh with one indexed triangle containing the cursor. -/
def meshA : Mesh :=
  ⟨PrimitiveTopology.TriangleList, [⟨POSITION, .Float3 triPositions⟩], some [0, 1, 2]⟩

/-- The same geometry tagged with a non-triangle-list topology. -/
def meshBadTopo : Mesh :=
  ⟨PrimitiveTopology.LineList, [⟨POSITION, .Float3 triPositions⟩], some [0, 1, 2]⟩

/-- The same geometry with the index buffer absent. -/
def meshNoIndices : Mesh :=
  ⟨PrimitiveTopology.TriangleList, [⟨POSITION, .Float3 triPositions⟩], none⟩

/-- A triangle-list mesh whose index buffer is a single incomplete chunk. -/
def meshShortChunk : Mesh := ⟨PrimitiveTopology.TriangleList, [], some [0]⟩

/-- Vertex positions holding a far-away triangle (indices 3-5) followed by
the containing triangle (indices 0-2). -/
def vertsW : List Vec3 :=
  [⟨-1, -1, 0⟩, ⟨1, -1, 0⟩, ⟨0, 1, 0⟩, ⟨5, 5, 0⟩, ⟨6, 5, 0⟩, ⟨5, 6, 0⟩]

/-- The far-away triangle of `vertsW`, which does not contain the origin. -/
def triFar : Vec3 × Vec3 × Vec3 := (⟨5, 5, 0⟩, ⟨6, 5, 0⟩, ⟨5, 6, 0⟩)

/-! ## Helper lemmas -/

/-- Unfolding of the boolean result of `point_in_tri` into the arithmetic
comparison it decides. -/
theorem point_in_tri_eq_true_iff (p a b c : Vec2) :
    point_in_tri p a b c = true ↔
      |double_tri_area a b c -
        (double_tri_area p a b + double_tri_area p a c + double_tri_area p b c)| <
        epsilon := by
  simp [point_in_tri]

/-- A double area with two coincident vertices is zero. -/
theorem double_tri_area_self (p a : Vec2) : double_tri_area p a a = 0 := by
  unfold double_tri_area
  have h : p.x * (a.y - a.y) + a.x * (a.y - p.y) + a.x * (p.y - a.y) = 0 := by ring
  rw [h, abs_zero]

/-- Every point passes the containment test against a triangle whose three
vertices coincide: all four double areas vanish. -/
theorem point_in_tri_coincident (p a : Vec2) : point_in_tri p a a a = true := by
  rw [point_in_tri_eq_true_iff]
  rw [double_tri_area_self a a, double_tri_area_self p a]
  norm_num [epsilon]

/-! ## Claims about the geometric predicate -/

/-- C8: the point-in-triangle predicate declares a point inside iff the sum
of the three sub-triangle areas equals the full area within absolute
tolerance `1e-9`; for the triangle `(0,0), (4,0), (0,4)` the point `(1,1)`
is inside, `(5,5)` is outside, and the edge point `(2,0)` is inside. -/
theorem point_in_tri_spec :
    (∀ p a b c : Vec2,
      point_in_tri p a b c = true ↔
        |double_tri_area a b c -
          (double_tri_area p a b + double_tri_area p a c + double_tri_area p b c)| <
          1 / 1000000000) ∧
    point_in_tri ⟨1, 1⟩ ⟨0, 0⟩ ⟨4, 0⟩ ⟨0, 4⟩ = true ∧
    point_in_tri ⟨5, 5⟩ ⟨0, 0⟩ ⟨4, 0⟩ ⟨0, 4⟩ = false ∧
    point_in_tri ⟨2, 0⟩ ⟨0, 0⟩ ⟨4, 0⟩ ⟨0, 4⟩ = true := by
  refine ⟨fun p a b c => point_in_tri_eq_true_iff p a b c, ?_, ?_, ?_⟩ <;>
    · simp [point_in_tri, double_tri_area, epsilon]
      norm_num [abs]

/-- C10: for every point `p` and every degenerate triangle whose three
vertices coincide, `point_in_tri p a a a` returns `true`: the total area
and the three sub-areas are all zero, so their difference is within the
tolerance. -/
theorem point_in_tri_degenerate_true : ∀ p a : Vec2, point_in_tri p a a a = true :=
  fun p a => point_in_tri_coincident p a

/-! ## Helper lemmas for the camera subsystem -/

/-- Degree-to-radian conversion is monotone. -/
theorem toRadians_le_toRadians {a b : ℝ} (h : a ≤ b) : toRadians a ≤ toRadians b := by
  unfold toRadians
  have hpi : (0 : ℝ) ≤ Real.pi / 180 := by positivity
  exact mul_le_mul_of_nonneg_right h hpi

/-- The clamp step of `update_camera` establishes the state invariant. -/
theorem update_camera_camInRange (camera : OrbitCamera) :
    camInRange (update_camera camera) := by
  unfold camInRange update_camera
  exact ⟨le_min (le_max_right _ _) (toRadians_le_toRadians (by norm_num)),
    min_le_right _ _,
    le_min (le_max_right _ _) (by norm_num),
    min_le_right _ _⟩

/-- The clamp step is the identity on states already in range. -/
theorem update_camera_eq_self {camera : OrbitCamera} (h : camInRange camera) :
    update_camera camera = camera := by
  obtain ⟨h1, h2, h3, h4⟩ := h
  have hp : min (max camera.cam_pitch (toRadians 1)) (toRadians 179) = camera.cam_pitch := by
    rw [max_eq_left h1, min_eq_left h2]
  have hd : min (max camera.cam_distance 5) 30 = camera.cam_distance := by
    rw [max_eq_left h3, min_eq_left h4]
  unfold update_camera
  rw [hp, hd]

/-- The default camera state satisfies the invariant. -/
theorem default_camInRange : camInRange OrbitCamera.default :=
  ⟨toRadians_le_toRadians (by norm_num), toRadians_le_toRadians (by norm_num),
    by norm_num [OrbitCamera.default], by norm_num [OrbitCamera.default]⟩

/-! ## Claims about the camera subsystem -/

/-- C1: after every `update_camera`, for every prior state and every
sequence of intents of any magnitude or sign, the stored pitch lies within
`[1°, 179°]` in radians and the stored distance within `[5, 30]`; this
holds unconditionally, including for externally mutated fields. -/
theorem camera_clamp_invariant :
    (∀ camera : OrbitCamera, camInRange (update_camera camera)) ∧
    ∀ (camera : OrbitCamera) (steps : List (Option CameraManipulation × ℝ)),
      steps ≠ [] → camInRange (runFrames camera steps) := by
  refine ⟨update_camera_camInRange, ?_⟩
  intro camera steps hne
  induction steps generalizing camera with
  | nil => exact absurd rfl hne
  | cons p ps ih =>
    cases ps with
    | nil => exact update_camera_camInRange (applyManipulation camera p.1 p.2)
    | cons q qs => exact ih (frame camera p.1 p.2) (List.cons_ne_nil q qs)

/-- Witness for C1: a concrete one-step run lands in range. -/
theorem camera_clamp_invariant_witness :
    (([(none, (1 : ℝ))] : List (Option CameraManipulation × ℝ)) ≠ []) ∧
      camInRange (runFrames OrbitCamera.default [(none, 1)]) :=
  ⟨List.cons_ne_nil _ _,
    camera_clamp_invariant.2 OrbitCamera.default [(none, 1)] (List.cons_ne_nil _ _)⟩

/-- C6: the classifier produces at most one intent per frame, chosen by
first match: Alt+Middle → Pan, else Shift+Middle → Rotate, else Middle →
Orbit, else nonzero vertical scroll → Zoom, else none. -/
theorem classify_first_match :
    ∀ (l_alt l_shift l_mouse m_mouse r_mouse : Bool) (mv : MouseMotion) (sc : MouseWheel),
      (l_alt = true ∧ m_mouse = true →
        classifyManipulation l_alt l_shift l_mouse m_mouse r_mouse mv sc =
          some (CameraManipulation.Pan mv)) ∧
      (l_alt = false ∧ l_shift = true ∧ m_mouse = true →
        classifyManipulation l_alt l_shift l_mouse m_mouse r_mouse mv sc =
          some (CameraManipulation.Rotate mv)) ∧
      (l_alt = false ∧ l_shift = false ∧ m_mouse = true →
        classifyManipulation l_alt l_shift l_mouse m_mouse r_mouse mv sc =
          some (CameraManipulation.Orbit mv)) ∧
      (m_mouse = false ∧ sc.y ≠ 0 →
        classifyManipulation l_alt l_shift l_mouse m_mouse r_mouse mv sc =
          some (CameraManipulation.Zoom sc)) ∧
      (m_mouse = false ∧ sc.y = 0 →
        classifyManipulation l_alt l_shift l_mouse m_mouse r_mouse mv sc = none) := by
  intro l_alt l_shift l_mouse m_mouse r_mouse mv sc
  refine ⟨?_, ?_, ?_, ?_, ?_⟩
  · rintro ⟨rfl, rfl⟩
    simp [classifyManipulation]
  · rintro ⟨rfl, rfl, rfl⟩
    simp [classifyManipulation]
  · rintro ⟨rfl, rfl, rfl⟩
    simp [classifyManipulation]
  · rintro ⟨rfl, hy⟩
    simp [classifyManipulation, hy]
  · rintro ⟨rfl, hy⟩
    simp [classifyManipulation, hy]

/-- Witness for C6: one concrete frame input per decision branch. -/
theorem classify_first_match_witness :
    classifyManipulation true true true true true ⟨⟨0, 0⟩⟩ ⟨MouseScrollUnit.Pixel, 0, 0⟩ =
        some (CameraManipulation.Pan ⟨⟨0, 0⟩⟩) ∧
      classifyManipulation false true false true false ⟨⟨0, 0⟩⟩ ⟨MouseScrollUnit.Pixel, 0, 0⟩ =
        some (CameraManipulation.Rotate ⟨⟨0, 0⟩⟩) ∧
      classifyManipulation false false false true false ⟨⟨0, 0⟩⟩ ⟨MouseScrollUnit.Pixel, 0, 0⟩ =
        some (CameraManipulation.Orbit ⟨⟨0, 0⟩⟩) ∧
      classifyManipulation false false false false false ⟨⟨0, 0⟩⟩ ⟨MouseScrollUnit.Pixel, 0, 3⟩ =
        some (CameraManipulation.Zoom ⟨MouseScrollUnit.Pixel, 0, 3⟩) ∧
      classifyManipulation false false false false false ⟨⟨0, 0⟩⟩ ⟨MouseScrollUnit.Pixel, 0, 0⟩ =
        none :=
  ⟨(classify_first_match true true true true true ⟨⟨0, 0⟩⟩ ⟨MouseScrollUnit.Pixel, 0, 0⟩).1
      ⟨rfl, rfl⟩,
    (classify_first_match false true false true false ⟨⟨0, 0⟩⟩ ⟨MouseScrollUnit.Pixel, 0, 0⟩).2.1
      ⟨rfl, rfl, rfl⟩,
    (classify_first_match false false false true false ⟨⟨0, 0⟩⟩
      ⟨MouseScrollUnit.Pixel, 0, 0⟩).2.2.1 ⟨rfl, rfl, rfl⟩,
    (classify_first_match false false false false false ⟨⟨0, 0⟩⟩
      ⟨MouseScrollUnit.Pixel, 0, 3⟩).2.2.2.1 ⟨rfl, by norm_num⟩,
    (classify_first_match false false false false false ⟨⟨0, 0⟩⟩
      ⟨MouseScrollUnit.Pixel, 0, 0⟩).2.2.2.2 ⟨rfl, rfl⟩⟩

/-- C7: `Orbit(delta)` sets yaw to `yaw + delta.x * dt` and pitch to
`pitch - delta.y * dt * 1.0`; `Zoom(scroll)` sets distance to
`distance - scroll.y * dt * 50.0` before clamping; `Orbit` with
`delta = (π, 0)` and `dt = 1` adds exactly `π` to yaw and keeps the pitch;
`Zoom` with `scroll.y = 1`, `dt = 1` from distance `20` yields `20 - 50`,
clamped to `5`. -/
theorem manipulation_update_rules :
    (∀ (camera : OrbitCamera) (mv : MouseMotion) (dt : ℝ),
      applyManipulation camera (some (CameraManipulation.Orbit mv)) dt =
        { camera with
          cam_yaw := camera.cam_yaw + mv.delta.x * dt
          cam_pitch := camera.cam_pitch - mv.delta.y * dt * 1 }) ∧
    (∀ (camera : OrbitCamera) (sc : MouseWheel) (dt : ℝ),
      applyManipulation camera (some (CameraManipulation.Zoom sc)) dt =
        { camera with cam_distance := camera.cam_distance - sc.y * dt * 50 }) ∧
    (∀ camera : OrbitCamera,
      applyManipulation camera (some (CameraManipulation.Orbit ⟨⟨Real.pi, 0⟩⟩)) 1 =
        { camera with cam_yaw := camera.cam_yaw + Real.pi }) ∧
    (frame ⟨20, toRadians 30, 0, none, none, none⟩
        (some (CameraManipulation.Zoom ⟨MouseScrollUnit.Pixel, 0, 1⟩)) 1).cam_distance = 5 := by
  refine ⟨?_, ?_, ?_, ?_⟩
  · intro camera mv dt
    unfold applyManipulation
    ext <;> simp [look_scale]
  · intro camera sc dt
    unfold applyManipulation
    ext <;> simp [zoom_scale]
  · intro camera
    unfold applyManipulation
    ext <;> simp [look_scale]
  · show (update_camera (applyManipulation _ _ _)).cam_distance = 5
    unfold update_camera applyManipulation
    have h : (20 : ℝ) - 1 * 1 * zoom_scale = -30 := by norm_num [zoom_scale]
    dsimp only
    rw [h, max_eq_right (by norm_num : (-30 : ℝ) ≤ 5), min_eq_left (by norm_num : (5 : ℝ) ≤ 30)]

/-- C9: for every camera state already within its clamps, a frame with no
intent, a `Pan` intent, a `Rotate` intent, or an `Orbit` intent with zero
delta leaves yaw, pitch and distance exactly unchanged. -/
theorem frame_zero_delta_noop :
    ∀ (camera : OrbitCamera) (dt : ℝ) (mv : MouseMotion), camInRange camera →
      frame camera none dt = camera ∧
      frame camera (some (CameraManipulation.Pan mv)) dt = camera ∧
      frame camera (some (CameraManipulation.Rotate mv)) dt = camera ∧
      frame camera (some (CameraManipulation.Orbit ⟨⟨0, 0⟩⟩)) dt = camera := by
  intro camera dt mv h
  have horb : applyManipulation camera (some (CameraManipulation.Orbit ⟨⟨0, 0⟩⟩)) dt = camera := by
    unfold applyManipulation
    ext <;> simp
  refine ⟨?_, ?_, ?_, ?_⟩
  · exact update_camera_eq_self h
  · exact update_camera_eq_self h
  · exact update_camera_eq_self h
  · show update_camera (applyManipulation camera (some (CameraManipulation.Orbit ⟨⟨0, 0⟩⟩)) dt) =
      camera
    rw [horb]
    exact update_camera_eq_self h

/-- Witness for C9: the default camera state is in range and a no-intent
frame keeps it unchanged. -/
theorem frame_zero_delta_noop_witness :
    camInRange OrbitCamera.default ∧ frame OrbitCamera.default none 1 = OrbitCamera.default :=
  ⟨default_camInRange,
    (frame_zero_delta_noop OrbitCamera.default 1 ⟨⟨0, 0⟩⟩ default_camInRange).1⟩

/-! ## Claims about the picking loop -/

/-- C2 counterexample: two identical triangle-list meshes whose only
triangle contains the cursor.  The first hit only breaks the triangle loop
of its own mesh, so the second mesh is still evaluated and also reports a
hit, contrary to the claim that no remaining mesh is evaluated. -/
theorem pick_hit_does_not_stop_mesh_loop :
    cursor_pick ⟨1, 1⟩ ⟨2, 2⟩ Mat4.identity Mat4.identity
      [(0, meshA, Mat4.identity), (1, meshA, Mat4.identity)] =
      some [⟨0, triA⟩, ⟨1, triA⟩] := by
  norm_num [cursor_pick, pickMeshes, meshHit, scanChunks, chunkTriangle, chunks3,
    extractVertices, triContains, point_in_tri, double_tri_area, epsilon, ndcCursor,
    Mat4.mul, Mat4.mulVec4, Mat4.transformPoint3, Mat4.identity, Vec4.add, Vec4.smul,
    Vec3.zero, POSITION, meshA, triPositions, triA, List.get?, abs]

/-- C2 amended: within one mesh, the first index chunk whose triangle
contains the cursor wins and the remaining chunks of that mesh are not
evaluated; but the remaining meshes are still evaluated, each triangle-list
mesh contributing its own optional hit in iteration order. -/
theorem pick_first_match_per_mesh :
    (∀ (cursor : Vec2) (combined : Mat4) (vertices : List Vec3)
        (l1 : List (List Nat)) (c : List Nat) (l2 : List (List Nat)) (t : Vec3 × Vec3 × Vec3),
      (∀ c' ∈ l1, ∃ t', chunkTriangle combined vertices c' = some t' ∧
        triContains cursor t' = false) →
      chunkTriangle combined vertices c = some t →
      triContains cursor t = true →
      scanChunks cursor combined vertices (l1 ++ c :: l2) = some (some t)) ∧
    ∀ (cursor : Vec2) (projection view : Mat4) (ms : List (Nat × Mesh × Mat4)),
      (∀ m ∈ ms, m.2.1.primitive_topology = PrimitiveTopology.TriangleList) →
      pickMeshes cursor projection view ms =
        ms.foldr (fun m acc => combineHit (meshHit cursor projection view m) acc)
          (some []) := by
  constructor
  · intro cursor combined vertices l1 c l2 t h1 h2 h3
    induction l1 with
    | nil => simp [scanChunks, h2, h3]
    | cons c' l1 ih =>
      obtain ⟨t', ht', hf⟩ := h1 c' (List.mem_cons_self c' l1)
      simp only [List.cons_append, scanChunks, ht', hf, Bool.false_eq_true, if_false]
      exact ih fun c'' hc'' => h1 c'' (List.mem_cons_of_mem c' hc'')
  · intro cursor projection view ms hall
    induction ms with
    | nil => rfl
    | cons m ms ih =>
      have hm : m.2.1.primitive_topology = PrimitiveTopology.TriangleList :=
        hall m (List.mem_cons_self m ms)
      have ihh := ih fun m' hm' => hall m' (List.mem_cons_of_mem m hm')
      rw [List.foldr_cons, ← ihh]
      simp only [pickMeshes]
      rw [if_neg (by simp [hm])]
      cases hmh : meshHit cursor projection view m with
      | none => rfl
      | some oh =>
        cases hpm : pickMeshes cursor projection view ms with
        | none => cases oh <;> simp [combineHit]
        | some hits => cases oh <;> simp [combineHit]

/-- Witness for the amended C2: a concrete mesh whose second chunk is the
first containing triangle, and a concrete one-mesh loop evaluated by the
fold. -/
theorem pick_first_match_per_mesh_witness :
    triContains ⟨0, 0⟩ triA = true ∧
      scanChunks ⟨0, 0⟩ Mat4.identity vertsW ([[3, 4, 5]] ++ [0, 1, 2] :: []) =
        some (some triA) ∧
      pickMeshes ⟨0, 0⟩ Mat4.identity Mat4.identity [(0, meshA, Mat4.identity)] =
        [(0, meshA, Mat4.identity)].foldr
          (fun m acc => combineHit (meshHit ⟨0, 0⟩ Mat4.identity Mat4.identity m) acc)
          (some []) :=
  ⟨by norm_num [triContains, point_in_tri, double_tri_area, epsilon, triA, abs],
    pick_first_match_per_mesh.1 ⟨0, 0⟩ Mat4.identity vertsW [[3, 4, 5]] [0, 1, 2] [] triA
      (by
        intro c' hc'
        simp only [List.mem_singleton] at hc'
        subst hc'
        refine ⟨triFar, ?_, ?_⟩
        · norm_num [chunkTriangle, vertsW, triFar, Mat4.transformPoint3, Mat4.mulVec4,
            Vec4.add, Vec4.smul, Mat4.identity, List.get?]
        · norm_num [triContains, point_in_tri, double_tri_area, epsilon, triFar, abs])
      (by
        norm_num [chunkTriangle, vertsW, triA, Mat4.transformPoint3, Mat4.mulVec4,
          Vec4.add, Vec4.smul, Mat4.identity, List.get?])
      (by norm_num [triContains, point_in_tri, double_tri_area, epsilon, triA, abs]),
    pick_first_match_per_mesh.2 ⟨0, 0⟩ Mat4.identity Mat4.identity [(0, meshA, Mat4.identity)]
      (by
        intro m hm
        simp only [List.mem_singleton] at hm
        subst hm
        rfl)⟩

/-- C3 counterexample: a mesh with line-list topology followed by a
triangle-list mesh whose triangle contains the cursor.  The bad mesh
executes `break`, so the pick reports nothing, although the second mesh
alone would report a hit. -/
theorem pick_bad_topology_stops_loop_cex :
    cursor_pick ⟨1, 1⟩ ⟨2, 2⟩ Mat4.identity Mat4.identity
      [(0, meshBadTopo, Mat4.identity), (1, meshA, Mat4.identity)] = some [] ∧
    cursor_pick ⟨1, 1⟩ ⟨2, 2⟩ Mat4.identity Mat4.identity [(1, meshA, Mat4.identity)] =
      some [⟨1, triA⟩] := by
  constructor
  · show pickMeshes (ndcCursor ⟨1, 1⟩ ⟨2, 2⟩) Mat4.identity Mat4.identity _ = some []
    simp only [pickMeshes]
    rw [if_pos (by decide)]
  · norm_num [cursor_pick, pickMeshes, meshHit, scanChunks, chunkTriangle, chunks3,
      extractVertices, triContains, point_in_tri, double_tri_area, epsilon, ndcCursor,
      Mat4.mul, Mat4.mulVec4, Mat4.transformPoint3, Mat4.identity, Vec4.add, Vec4.smul,
      Vec3.zero, POSITION, meshA, triPositions, triA, List.get?, abs]

/-- C3 amended: a mesh whose primitive topology is not triangle list
terminates the whole picking loop: the result is exactly the result of the
meshes before it, and no mesh after it is evaluated. -/
theorem pick_bad_topology_terminates_scan :
    ∀ (pos size : Vec2) (projection view : Mat4) (b : Nat × Mesh × Mat4)
      (ms1 ms2 : List (Nat × Mesh × Mat4)),
      b.2.1.primitive_topology ≠ PrimitiveTopology.TriangleList →
      cursor_pick pos size projection view (ms1 ++ b :: ms2) =
        cursor_pick pos size projection view ms1 := by
  intro pos size projection view b ms1 ms2 hb
  unfold cursor_pick
  induction ms1 with
  | nil => simp [pickMeshes, hb]
  | cons m ms ih =>
    by_cases hm : m.2.1.primitive_topology ≠ PrimitiveTopology.TriangleList
    · simp [pickMeshes, hm]
    · simp only [List.cons_append, pickMeshes, List.append_eq]
      rw [if_neg hm, if_neg hm, ih]

/-- Witness for the amended C3: with no earlier meshes, a bad-topology mesh
makes the pick return the empty result of the empty prefix. -/
theorem pick_bad_topology_terminates_scan_witness :
    (meshBadTopo.primitive_topology ≠ PrimitiveTopology.TriangleList) ∧
      cursor_pick ⟨1, 1⟩ ⟨2, 2⟩ Mat4.identity Mat4.identity
          ([] ++ (0, meshBadTopo, Mat4.identity) :: [(1, meshA, Mat4.identity)]) =
        cursor_pick ⟨1, 1⟩ ⟨2, 2⟩ Mat4.identity Mat4.identity [] :=
  ⟨by decide,
    pick_bad_topology_terminates_scan ⟨1, 1⟩ ⟨2, 2⟩ Mat4.identity Mat4.identity
      (0, meshBadTopo, Mat4.identity) [] [(1, meshA, Mat4.identity)] (by decide)⟩

/-- C4 counterexample: a triangle-list mesh whose index buffer is absent is
never tested: the pick reports nothing although the mesh's position triple
forms a triangle that contains the NDC cursor.  There is no fallback to
consecutive position triples (`if let Some(indices)` has no `else`). -/
theorem pick_missing_indices_cex :
    point_in_tri (ndcCursor ⟨1, 1⟩ ⟨2, 2⟩) ⟨-1, -1⟩ ⟨1, -1⟩ ⟨0, 1⟩ = true ∧
      cursor_pick ⟨1, 1⟩ ⟨2, 2⟩ Mat4.identity Mat4.identity
        [(0, meshNoIndices, Mat4.identity)] = some [] := by
  constructor
  · norm_num [point_in_tri, double_tri_area, epsilon, ndcCursor, abs]
  · norm_num [cursor_pick, pickMeshes, meshHit, meshNoIndices, ndcCursor]

/-- C4 amended: a triangle-list mesh whose index buffer is absent
contributes no triangles and no hit; the loop moves on to the remaining
meshes unchanged. -/
theorem pick_missing_indices_skips_mesh :
    ∀ (pos size : Vec2) (projection view : Mat4) (i : Nat) (m : Mesh) (tf : Mat4)
      (rest : List (Nat × Mesh × Mat4)),
      m.primitive_topology = PrimitiveTopology.TriangleList → m.indices = none →
      cursor_pick pos size projection view ((i, m, tf) :: rest) =
        cursor_pick pos size projection view rest := by
  intro pos size projection view i m tf rest ht hi
  unfold cursor_pick
  simp only [pickMeshes]
  rw [if_neg (by simp [ht])]
  unfold meshHit
  simp only [hi]
  cases pickMeshes (ndcCursor pos size) projection view rest <;> rfl

/-- Witness for the amended C4: the concrete index-free mesh is passed
over. -/
theorem pick_missing_indices_skips_mesh_witness :
    (meshNoIndices.primitive_topology = PrimitiveTopology.TriangleList ∧
      meshNoIndices.indices = none) ∧
      cursor_pick ⟨1, 1⟩ ⟨2, 2⟩ Mat4.identity Mat4.identity
          [(0, meshNoIndices, Mat4.identity)] =
        cursor_pick ⟨1, 1⟩ ⟨2, 2⟩ Mat4.identity Mat4.identity [] :=
  ⟨⟨rfl, rfl⟩,
    pick_missing_indices_skips_mesh ⟨1, 1⟩ ⟨2, 2⟩ Mat4.identity Mat4.identity 0
      meshNoIndices Mat4.identity [] rfl rfl⟩

/-- C5 counterexample: a mesh whose index buffer is the single incomplete
chunk `[0]` produces a hit: the chunk is not skipped, the triangle keeps
its all-zero initialisation, and the zero triangle contains every cursor
point within the tolerance. -/
theorem pick_short_chunk_hits_cex :
    cursor_pick ⟨1, 1⟩ ⟨2, 2⟩ Mat4.identity Mat4.identity
      [(0, meshShortChunk, Mat4.identity)] =
      some [⟨0, (Vec3.zero, Vec3.zero, Vec3.zero)⟩] := by
  norm_num [cursor_pick, pickMeshes, meshHit, scanChunks, chunkTriangle, chunks3,
    extractVertices, triContains, point_in_tri, double_tri_area, epsilon, ndcCursor,
    Mat4.mul, Mat4.mulVec4, Mat4.transformPoint3, Mat4.identity, Vec4.add, Vec4.smul,
    Vec3.zero, POSITION, meshShortChunk, List.get?, abs]

/-- C5 amended: an index chunk with fewer (or more) than three indices is
tested as the all-zero triangle, which contains every cursor point, so the
chunk always produces the hit for its mesh instead of being skipped. -/
theorem pick_short_chunk_always_hits :
    ∀ (cursor : Vec2) (combined : Mat4) (vertices : List Vec3) (c : List Nat)
      (rest : List (List Nat)), c.length ≠ 3 →
      scanChunks cursor combined vertices (c :: rest) =
        some (some (Vec3.zero, Vec3.zero, Vec3.zero)) := by
  intro cursor combined vertices c rest hc
  have hz : triContains cursor (Vec3.zero, Vec3.zero, Vec3.zero) = true := by
    have h0 := point_in_tri_coincident cursor ⟨0, 0⟩
    simpa [triContains, Vec3.zero] using h0
  simp [scanChunks, chunkTriangle, hc, hz]

/-- Witness for the amended C5: the concrete one-index chunk hits with the
zero triangle. -/
theorem pick_short_chunk_always_hits_witness :
    (([0] : List Nat).length ≠ 3) ∧
      scanChunks ⟨2, 3⟩ Mat4.identity [] [[0]] =
        some (some (Vec3.zero, Vec3.zero, Vec3.zero)) :=
  ⟨by decide, pick_short_chunk_always_hits ⟨2, 3⟩ Mat4.identity [] [0] [] (by decide)⟩

end HelloBevy
